import Mathlib

/-!
A shallow embedding of `dreadfort/sinks/elasticsearch/sink.py`, the
elasticsearch data sink.  Python dictionaries and JSON documents are
modelled by an inductive `Json` type, the module-level broker state by
explicit state passing, and the generator / bulk-flush pipeline by
functions over the finite list of pull outcomes one worker observes.
-/

/-- JSON-like values: the documents, actions and payloads the sink moves. -/
inductive Json where
  | null : Json
  | bool (b : Bool) : Json
  | num (n : Int) : Json
  | str (s : String) : Json
  | arr (items : List Json) : Json
  | obj (fields : List (String × Json)) : Json

/-- Python subscript `d[k]` on a dict: `some` value when `d` is an object
with key `k`, `none` when the subscript raises (`KeyError`/`TypeError`). -/
def Json.get : Json → String → Option Json
  | .obj fields, k => fields.lookup k
  | _, _ => none

/-- Process-wide configuration read from `es_handler` at import time: the
module constants `BULK_SIZE = es_handler.bulk_size` and `TTL = es_handler.ttl`. -/
structure Config where
  bulkSize : Nat
  ttl : Int

/-- Exceptions of the embedded code. -/
inductive Err where
  | declareFail
  | keyError
  | nameError
  | connectFail
  | emptyTimeout
  | backendFail
deriving DecidableEq

/-- Module-level publisher state: broker reachability, whether the module's
channel declaration succeeded, the uuid source, the actions durably
published so far, and everything handed to `_LOG`. -/
structure SinkState where
  brokerUp : Bool
  declared : Bool
  uuidCtr : Nat
  published : List Json
  logged : List Err

/-- Module import: the `try` block declares the exchange and the queue; a
failure is caught and logged (`_LOG.exception(ex)`) and the import completes
anyway, leaving `es_queue` and `bound_exchange` undefined. -/
def moduleInit (brokerUp : Bool) : SinkState :=
  { brokerUp := brokerUp
    declared := brokerUp
    uuidCtr := 0
    published := []
    logged := if brokerUp then [] else [Err.declareFail] }

/-- The action dictionary `_queue_index_request` builds.  The fresh
`str(uuid.uuid4())` is modelled by the state's uuid counter, rendered as a
number under the `_id` key. -/
def mkAction (index docType : Json) (actionId : Nat) (ttl : Int) (document : Json) : Json :=
  Json.obj [("_index", index), ("_type", docType),
            ("_id", Json.num (Int.ofNat actionId)),
            ("_ttl", Json.num ttl), ("_source", document)]

/-- The body of `_queue_index_request(index, doc_type, document, ttl)`:
builds the action (consuming one fresh uuid) and publishes it to the
`elasticsearch` queue.  Publishing raises when `es_queue` is undefined
(`NameError` after a failed module declaration) or the broker is
unreachable. -/
def _queue_index_request (index docType document : Json) (ttl : Int)
    (st : SinkState) : SinkState × Option Err :=
  let action := mkAction index docType st.uuidCtr ttl document
  let st1 : SinkState := { st with uuidCtr := st.uuidCtr + 1 }
  if st.declared = false then (st1, some Err.nameError)
  else if st.brokerUp = false then (st1, some Err.connectFail)
  else ({ st1 with published := st1.published ++ [action] }, none)

/-- Calling `_queue_index_request` with the `ttl` parameter omitted: the
Python default `ttl=TTL` supplies the configured module constant. -/
def queueIndexRequestTTL (cfg : Config) (index docType document : Json)
    (st : SinkState) : SinkState × Option Err :=
  _queue_index_request index docType document cfg.ttl st

/-- Outcome of the celery task `put_message`: either the action was
published, or the exception was caught, logged, and `put_message.retry()`
was called. -/
inductive PutOutcome where
  | published (st : SinkState)
  | retried (st : SinkState)

/-- Append a caught exception to the log (`_LOG.exception(...)`). -/
def logErr (st : SinkState) (e : Err) : SinkState :=
  { st with logged := st.logged ++ [e] }

/-- The celery task `put_message(message)`: evaluates
`message['dreadfort']['tenant']` and then
`message['dreadfort']['correlation']['pattern']`, and runs
`_queue_index_request` on them; any exception whatsoever is caught, logged,
and the task retried. -/
def put_message (cfg : Config) (message : Json) (st : SinkState) : PutOutcome :=
  match (message.get "dreadfort").bind (fun d => d.get "tenant") with
  | none => PutOutcome.retried (logErr st Err.keyError)
  | some index =>
    match (message.get "dreadfort").bind
        (fun d => (d.get "correlation").bind (fun c => c.get "pattern")) with
    | none => PutOutcome.retried (logErr st Err.keyError)
    | some docType =>
      match queueIndexRequestTTL cfg index docType message st with
      | (st1, none) => PutOutcome.published st1
      | (st1, some e) => PutOutcome.retried (logErr st1 e)

/-- State after a `put_message` call, whichever branch was taken. -/
def PutOutcome.state : PutOutcome → SinkState
  | .published st => st
  | .retried st => st

/-- A sequence of `put_message` calls, each on the state the previous one
left behind. -/
def runPuts (cfg : Config) (docs : List Json) (st : SinkState) : SinkState :=
  docs.foldl (fun s d => (put_message cfg d s).state) st

/-- A message handle pulled from the queue: `.payload` plus the broker
identity that `.ack()` acts on. -/
structure Msg where
  mid : Nat
  payload : Json

/-- What one `simple_queue.get(block=True, timeout=bulk_timeout)` call did:
delivered a message, or timed out. -/
inductive PullEvent where
  | msg (m : Msg)
  | timeout

/-- One standalone pull against the broker (the worker opens its own
`Connection(broker_url)`): it fails when the broker is unreachable, and
raises `Empty` on timeout. -/
def pullCall (brokerUp : Bool) (ev : PullEvent) : Except Err Msg :=
  if brokerUp = false then Except.error Err.connectFail
  else match ev with
    | .msg m => Except.ok m
    | .timeout => Except.error Err.emptyTimeout

/-- The generator `get_queue_stream(ack_list)` observed over a finite list
of pull outcomes: the handles appended to `ack_list` (in order), the
payloads yielded (in order), and whether the generator died because a pull
timed out — `SimpleQueue.get` raises `Empty` on timeout and the generator's
loop does not catch it.  Each handle is appended before its payload is
yielded, so the two lists are aligned position by position. -/
def streamRun : List PullEvent → List Msg × List Json × Bool
  | [] => ([], [], false)
  | PullEvent.timeout :: _ => ([], [], true)
  | PullEvent.msg m :: rest =>
    let r := streamRun rest
    (m :: r.1, m.payload :: r.2.1, r.2.2)

/-- The acknowledgment loop `for response in bulker: msg = ack_list.pop(0)`:
pairs each yielded result positionally with the oldest entry of the pending
acknowledgment list, in order. -/
def popLoop : List Bool → List Msg → List (Bool × Msg)
  | [], _ => []
  | _ :: _, [] => []
  | r :: rs, m :: ms => (r, m) :: popLoop rs ms

/-- Chunking worker: each step buffers `c` documents and submits them as
one bulk request; the fuel is an upper bound on the number of steps, which
`fullChunks` instantiates with the length of the input. -/
def fullChunksGo (c : Nat) : Nat → List Json → List (List Json)
  | 0, _ => []
  | fuel + 1, xs =>
    if 0 < c ∧ c ≤ xs.length then
      xs.take c :: fullChunksGo c fuel (xs.drop c)
    else []

/-- The chunks `streaming_bulk(..., chunk_size=c)` actually submits while
streaming: it buffers `c` actions, submits them as one bulk request, and
repeats; a trailing buffer shorter than `c` is still waiting for more
actions and has not been submitted. -/
def fullChunks (c : Nat) (xs : List Json) : List (List Json) :=
  fullChunksGo c xs.length xs

/-- Everything outside the worker that one iteration of the flush loop
observes: whether `es_handler.connection` works, the outcome of each pull
the stream makes, the backend's per-document verdict (by submission
position), and, when the backend connection drops, the index of the chunk
whose submission raises. -/
structure IterEnv where
  connectOk : Bool
  pulls : List PullEvent
  judge : Nat → Bool
  failChunk : Option Nat

/-- What one iteration of the flush loop's `try` block did: the chunks
submitted to the backend, the messages acknowledged (removed from the
channel), the messages popped but left un-acknowledged (eligible for broker
redelivery), the entries still sitting in `ack_list` when the iteration
ended, and the exception that ended it (`none` while it is still running). -/
structure IterOut where
  batches : List (List Json)
  acked : List Msg
  unacked : List Msg
  leftover : List Msg
  err : Option Err

/-- One iteration of the `try` block of `flush_to_es`.  `stale` is whatever
`ack_list` still referenced from the previous iteration; the code rebinds
`ack_list = list()` at once, so `stale` is discarded unread.  The stream is
exactly `get_queue_stream(ack_list)`, the bulker submits full chunks of
`cfg.bulkSize` yielded payloads, yields one result per submitted document
in submission order, and the `for` loop pops and conditionally acks. -/
def flushIter (cfg : Config) (_stale : List Msg) (env : IterEnv) : IterOut :=
  if env.connectOk = false then
    { batches := [], acked := [], unacked := [], leftover := []
      err := some Err.connectFail }
  else
    let s := streamRun env.pulls
    let handles := s.1
    let yields := s.2.1
    let timedOut := s.2.2
    let allChunks := fullChunks cfg.bulkSize yields
    let nOkChunks := match env.failChunk with
      | some k => min k allChunks.length
      | none => allChunks.length
    let results := (List.range (cfg.bulkSize * nOkChunks)).map env.judge
    let processed := popLoop results handles
    { batches := allChunks.take nOkChunks
      acked := (processed.filter (fun p => p.1)).map Prod.snd
      unacked := (processed.filter (fun p => !p.1)).map Prod.snd
      leftover := handles.drop processed.length
      err := match env.failChunk with
        | some k =>
          if k < allChunks.length then some Err.backendFail
          else if timedOut then some Err.emptyTimeout else none
        | none => if timedOut then some Err.emptyTimeout else none }

/-- The `while True` recovery loop of `flush_to_es` observed over a finite
list of per-iteration environments: each iteration's exception is caught by
the bare `except` (which logs it) and the loop starts the next iteration;
an iteration that has not raised yet is still running, so nothing follows
it.  The entries left in `ack_list` are threaded to the next iteration as
its stale list, exactly as the Python variable survives until rebound. -/
def flushLoop (cfg : Config) (stale : List Msg) : List IterEnv → List IterOut
  | [] => []
  | e :: es =>
    let out := flushIter cfg stale e
    match out.err with
    | some _ => out :: flushLoop cfg out.leftover es
    | none => [out]

/-- The target a worker process is spawned with. -/
inductive ProcTarget where
  | flushToEs

/-- Running a spawned process's target: every worker runs the module-level
`flush_to_es` loop. -/
def ProcTarget.run : ProcTarget → Config → List Msg → List IterEnv → List IterOut
  | .flushToEs, cfg, stale, envs => flushLoop cfg stale envs

/-- A `multiprocessing.Process`: its target and whether `.start()` has been
called on it. -/
structure Proc where
  target : ProcTarget
  started : Bool

/-- The `ElasticSearchStreamBulker` object: the constructor stores its
`bulk_size` argument on the instance. -/
structure ElasticSearchStreamBulker where
  bulk_size : Nat

/-- The method `ElasticSearchStreamBulker.start`: sets
`concurrency = cpu_count()`, builds one `Process(target=flush_to_es)` per
core, and starts each of them with `map(lambda x: x.start(), process_list)`
(the repository is Python 2, where `map` is eager). -/
def ElasticSearchStreamBulker.start (_self : ElasticSearchStreamBulker)
    (cpuCount : Nat) : List Proc :=
  let concurrency := cpuCount
  let processList := (List.range concurrency).map
    (fun _ => Proc.mk ProcTarget.flushToEs false)
  processList.map (fun p => Proc.mk p.target true)

/-- The flush behavior of a worker spawned by a given bulker instance: the
process runs the module-level `flush_to_es`, which closes over the module
constant `BULK_SIZE` (in `cfg`); the instance is not consulted. -/
def bulkerWorkerRun (_self : ElasticSearchStreamBulker) (cfg : Config)
    (stale : List Msg) (envs : List IterEnv) : List IterOut :=
  flushLoop cfg stale envs

/-- The `_id` fields of the actions published so far, in publish order. -/
def publishedIds (st : SinkState) : List (Option Json) :=
  st.published.map (fun a => a.get "_id")

/-- Invariant tying the published ids to the uuid counter: every published
action's id was drawn from a counter value below the current one, and no id
repeats. -/
def IdsOk (st : SinkState) : Prop :=
  (∀ x ∈ publishedIds st, ∃ k : Nat, k < st.uuidCtr ∧ x = some (Json.num (Int.ofNat k)))
  ∧ (publishedIds st).Nodup

/-! Concrete data used to instantiate theorems with hypotheses. -/

/-- A concrete broker message. -/
def wMsg0 : Msg := Msg.mk 0 (Json.str "p0")

/-- A concrete broker message. -/
def wMsg1 : Msg := Msg.mk 1 (Json.str "p1")

/-- A concrete broker message. -/
def wMsg2 : Msg := Msg.mk 2 (Json.str "p2")

/-- A concrete configuration with `BULK_SIZE = 3`. -/
def wCfg : Config := Config.mk 3 360

/-- A concrete configuration with `BULK_SIZE = 2`. -/
def wCfg2 : Config := Config.mk 2 360

/-- A concrete well-formed document carrying its own routing metadata. -/
def wDoc : Json := Json.obj [("dreadfort", Json.obj [("tenant", Json.str "acme"),
  ("correlation", Json.obj [("pattern", Json.str "login")])]), ("body", Json.str "x")]

/-- An iteration that pulls one message and then times out. -/
def wEnvTimeout : IterEnv :=
  IterEnv.mk true [PullEvent.msg wMsg0, PullEvent.timeout] (fun _ => true) none

/-- An iteration whose backend connection cannot be established. -/
def wEnvConnFail : IterEnv := IterEnv.mk false [] (fun _ => true) none

/-- An iteration that pulls four messages (two full chunks of two) and then
times out. -/
def wEnvChunks : IterEnv := IterEnv.mk true [PullEvent.msg wMsg0, PullEvent.msg wMsg1,
  PullEvent.msg wMsg2, PullEvent.msg wMsg0, PullEvent.timeout] (fun _ => true) none

/-! Lemmas about the stream, the acknowledgment loop and the chunker. -/

theorem streamRun_msgs_timeout (pre : List Msg) (rest : List PullEvent) :
    streamRun (pre.map PullEvent.msg ++ PullEvent.timeout :: rest)
      = (pre, pre.map Msg.payload, true) := by
  induction pre with
  | nil => rfl
  | cons m t ih => simp [streamRun, ih]

theorem streamRun_yields (pulls : List PullEvent) :
    (streamRun pulls).2.1 = (streamRun pulls).1.map Msg.payload := by
  induction pulls with
  | nil => rfl
  | cons ev rest ih => cases ev <;> simp [streamRun, ih]

theorem popLoop_get? (rs : List Bool) (ms : List Msg) (k : Nat) :
    (popLoop rs ms).get? k
      = (rs.get? k).bind (fun r => (ms.get? k).map (fun m => (r, m))) := by
  induction rs generalizing ms k with
  | nil => simp [popLoop]
  | cons r rs ih =>
    cases ms with
    | nil => cases k <;> simp [popLoop]
    | cons m ms =>
      cases k with
      | zero => simp [popLoop]
      | succ k => simpa [popLoop] using ih ms k

theorem popLoop_length (rs : List Bool) (ms : List Msg) :
    (popLoop rs ms).length = min rs.length ms.length := by
  induction rs generalizing ms with
  | nil => simp [popLoop]
  | cons r rs ih =>
    cases ms with
    | nil => simp [popLoop]
    | cons m ms => simp [popLoop, ih, Nat.succ_min_succ]

theorem popLoop_range_all (ms : List Msg) (f : Nat → Bool)
    (hf : ∀ j, j < ms.length → f j = true) :
    popLoop ((List.range ms.length).map f) ms = ms.map (fun m => (true, m)) := by
  induction ms generalizing f with
  | nil => rfl
  | cons m t ih =>
    have h0 : f 0 = true := hf 0 (by simp)
    have hr : (List.range (m :: t).length).map f
        = f 0 :: (List.range t.length).map (fun j => f (j + 1)) := by
      simp [List.range_succ_eq_map, List.map_map, Function.comp]
    rw [hr, h0]
    simp only [popLoop, List.map_cons]
    rw [ih (fun j => f (j + 1))
      (fun j hj => hf (j + 1) (by simpa using Nat.succ_lt_succ hj))]


theorem popLoop_range_except (ms : List Msg) (i : Nat) (hi : i < ms.length) :
    popLoop ((List.range ms.length).map (fun j => decide (j ≠ i))) ms
      = (ms.take i).map (fun m => (true, m))
        ++ (false, ms.get ⟨i, hi⟩) :: (ms.drop (i + 1)).map (fun m => (true, m)) := by
  induction ms generalizing i with
  | nil => exact absurd hi (by simp)
  | cons m t ih =>
    have hr : (List.range (m :: t).length).map (fun j => decide (j ≠ i))
        = (decide (0 ≠ i)) :: (List.range t.length).map (fun j => decide (j + 1 ≠ i)) := by
      simp [List.range_succ_eq_map, List.map_map, Function.comp]
    rw [hr]
    cases i with
    | zero =>
      have h0 : (decide (0 ≠ 0) : Bool) = false := by decide
      rw [h0]
      simp only [popLoop]
      rw [popLoop_range_all t (fun j => decide (j + 1 ≠ 0)) (fun j _ => by simp)]
      simp
    | succ i' =>
      have hi' : i' < t.length := by simpa using hi
      have h0 : (decide (0 ≠ i' + 1) : Bool) = true := by simp
      rw [h0]
      simp only [popLoop]
      have ht : (List.range t.length).map (fun j => decide (j + 1 ≠ i' + 1))
          = (List.range t.length).map (fun j => decide (j ≠ i')) := by
        apply List.map_congr_left
        intro j _
        rw [decide_eq_decide]
        omega
      rw [ht, ih i' hi']
      simp

theorem fullChunksGo_nil (c fuel : Nat) : fullChunksGo c fuel [] = [] := by
  cases fuel with
  | zero => rfl
  | succ f =>
    rw [fullChunksGo, if_neg]
    simp only [List.length_nil]
    omega

theorem fullChunks_self (xs : List Json) (h : 0 < xs.length) :
    fullChunks xs.length xs = [xs] := by
  unfold fullChunks
  obtain ⟨n, hn⟩ : ∃ n, xs.length = n + 1 := ⟨xs.length - 1, by omega⟩
  rw [hn, fullChunksGo, if_pos (by omega), ← hn, List.take_length, List.drop_length,
    fullChunksGo_nil]

theorem fullChunksGo_mem_length {c fuel : Nat} {xs b : List Json}
    (hb : b ∈ fullChunksGo c fuel xs) : b.length = c := by
  induction fuel generalizing xs with
  | zero => simp [fullChunksGo] at hb
  | succ f ih =>
    by_cases h : 0 < c ∧ c ≤ xs.length
    · rw [fullChunksGo, if_pos h] at hb
      rcases List.mem_cons.mp hb with rfl | hb2
      · simp only [List.length_take]
        omega
      · exact ih hb2
    · rw [fullChunksGo, if_neg h] at hb
      simp at hb

theorem filter_fst_of_map_true (ms : List Msg) :
    ((ms.map (fun m => (true, m))).filter (fun p => p.1)).map Prod.snd = ms := by
  induction ms with
  | nil => rfl
  | cons m t ih => simpa [List.filter_cons] using ih

theorem filter_neg_fst_of_map_true (ms : List Msg) :
    ((ms.map (fun m => (true, m))).filter (fun p => !p.1)).map Prod.snd = [] := by
  induction ms with
  | nil => rfl
  | cons m t ih => simp [List.filter_cons, ih]

theorem flushIter_none_def (cfg : Config) (stale : List Msg) (pulls : List PullEvent)
    (judge : Nat → Bool) :
    flushIter cfg stale (IterEnv.mk true pulls judge none)
      = (let handles := (streamRun pulls).1
         let allChunks := fullChunks cfg.bulkSize (streamRun pulls).2.1
         let processed := popLoop
           ((List.range (cfg.bulkSize * allChunks.length)).map judge) handles
         IterOut.mk (allChunks.take allChunks.length)
           ((processed.filter (fun p => p.1)).map Prod.snd)
           ((processed.filter (fun p => !p.1)).map Prod.snd)
           (handles.drop processed.length)
           (if (streamRun pulls).2.2 then some Err.emptyTimeout else none)) := rfl

theorem flushIter_connectFail_def (cfg : Config) (stale : List Msg)
    (pulls : List PullEvent) (judge : Nat → Bool) (failChunk : Option Nat) :
    flushIter cfg stale (IterEnv.mk false pulls judge failChunk)
      = IterOut.mk [] [] [] [] (some Err.connectFail) := rfl

theorem flushIter_fresh (cfg : Config) (s t : List Msg) (env : IterEnv) :
    flushIter cfg s env = flushIter cfg t env := rfl

theorem flushIter_ok_batches (cfg : Config) (stale : List Msg) (pulls : List PullEvent)
    (judge : Nat → Bool) (fc : Option Nat) :
    (flushIter cfg stale (IterEnv.mk true pulls judge fc)).batches
      = (fullChunks cfg.bulkSize (streamRun pulls).2.1).take
          (match fc with
           | some k => min k (fullChunks cfg.bulkSize (streamRun pulls).2.1).length
           | none => (fullChunks cfg.bulkSize (streamRun pulls).2.1).length) := rfl

theorem flushLoop_cons_some (cfg : Config) (stale : List Msg) (e : IterEnv)
    (es : List IterEnv) (v : Err) (h : (flushIter cfg stale e).err = some v) :
    flushLoop cfg stale (e :: es)
      = flushIter cfg stale e :: flushLoop cfg (flushIter cfg stale e).leftover es := by
  simp only [flushLoop, h]

/-- The `_id` field of a built action. -/
theorem mkAction_id (index docType : Json) (k : Nat) (ttl : Int) (document : Json) :
    (mkAction index docType k ttl document).get "_id" = some (Json.num (Int.ofNat k)) := rfl

theorem idsOk_init (b : Bool) : IdsOk (moduleInit b) := by
  constructor <;> simp [publishedIds, moduleInit]

theorem idsOk_queue (index docType document : Json) (ttl : Int) (st : SinkState)
    (h : IdsOk st) : IdsOk (_queue_index_request index docType document ttl st).1 := by
  obtain ⟨hb, hn⟩ := h
  unfold _queue_index_request
  by_cases h1 : st.declared = false
  · rw [if_pos h1]
    exact ⟨fun x hx => (hb x hx).imp (fun k hk => ⟨Nat.lt_succ_of_lt hk.1, hk.2⟩), hn⟩
  · rw [if_neg h1]
    by_cases h2 : st.brokerUp = false
    · rw [if_pos h2]
      exact ⟨fun x hx => (hb x hx).imp (fun k hk => ⟨Nat.lt_succ_of_lt hk.1, hk.2⟩), hn⟩
    · rw [if_neg h2]
      show IdsOk { st with
        uuidCtr := st.uuidCtr + 1
        published := st.published ++ [mkAction index docType st.uuidCtr ttl document] }
      have hpub : publishedIds { st with
          uuidCtr := st.uuidCtr + 1
          published := st.published ++ [mkAction index docType st.uuidCtr ttl document] }
          = publishedIds st ++ [some (Json.num (Int.ofNat st.uuidCtr))] := by
        simp [publishedIds, mkAction_id]
      constructor
      · intro x hx
        rw [hpub] at hx
        rcases List.mem_append.mp hx with hx1 | hx2
        · exact (hb x hx1).imp (fun k hk => ⟨Nat.lt_succ_of_lt hk.1, hk.2⟩)
        · exact ⟨st.uuidCtr, Nat.lt_succ_self _, List.mem_singleton.mp hx2⟩
      · rw [hpub]
        refine List.Nodup.append hn (List.nodup_singleton _) ?_
        intro x hx hmem
        obtain ⟨k, hk, rfl⟩ := hb x hx
        have hkc : k = st.uuidCtr := by
          simpa using Option.some.inj (List.mem_singleton.mp hmem)
        omega

theorem idsOk_put (cfg : Config) (m : Json) (st : SinkState) (h : IdsOk st) :
    IdsOk (put_message cfg m st).state := by
  rw [put_message]
  split
  · exact h
  next idx hm =>
    split
    · exact h
    next pat hp =>
      split
      next st1 heq =>
        have hq : IdsOk (queueIndexRequestTTL cfg idx pat m st).1 :=
          idsOk_queue idx pat m cfg.ttl st h
        rw [heq] at hq
        exact hq
      next st1 e heq =>
        have hq : IdsOk (queueIndexRequestTTL cfg idx pat m st).1 :=
          idsOk_queue idx pat m cfg.ttl st h
        rw [heq] at hq
        exact hq

theorem idsOk_runPuts (cfg : Config) (docs : List Json) (st : SinkState)
    (h : IdsOk st) : IdsOk (runPuts cfg docs st) := by
  induction docs generalizing st with
  | nil => exact h
  | cons d ds ih => exact ih _ (idsOk_put cfg d st h)

theorem declared_false_after_put (cfg : Config) (m : Json) (st : SinkState)
    (h1 : st.declared = false) (h2 : st.published = []) :
    (put_message cfg m st).state.declared = false
      ∧ (put_message cfg m st).state.published = [] := by
  rw [put_message]
  split
  · exact ⟨h1, h2⟩
  next idx hm =>
    split
    · exact ⟨h1, h2⟩
    next pat hp =>
      split
      next st1 heq =>
        have : (queueIndexRequestTTL cfg idx pat m st).2 = some Err.nameError := by
          rw [queueIndexRequestTTL, _queue_index_request, if_pos h1]
        rw [heq] at this
        simp at this
      next st1 e heq =>
        have hx : (queueIndexRequestTTL cfg idx pat m st).1.declared = false
            ∧ (queueIndexRequestTTL cfg idx pat m st).1.published = [] := by
          rw [queueIndexRequestTTL, _queue_index_request, if_pos h1]
          exact ⟨h1, h2⟩
        rw [heq] at hx
        exact hx

theorem runPuts_degraded (cfg : Config) (docs : List Json) (st : SinkState)
    (h1 : st.declared = false) (h2 : st.published = []) :
    (runPuts cfg docs st).declared = false ∧ (runPuts cfg docs st).published = [] := by
  induction docs generalizing st with
  | nil => exact ⟨h1, h2⟩
  | cons d ds ih =>
    exact ih _ (declared_false_after_put cfg d st h1 h2).1
      (declared_false_after_put cfg d st h1 h2).2

/-! The claims. -/

/-- C1: for a batch of `N` documents submitted in one flush cycle where the
backend fails exactly the document at position `i` and accepts all others,
after the results are processed exactly the message at position `i` is left
un-acknowledged (eligible for redelivery) and every other message of the
batch has been acknowledged and removed from the channel (nothing else
lingers in the pending-ack list). -/
theorem failed_doc_remains_unacked (cfg : Config) (stale msgs : List Msg) (i : Nat)
    (hi : i < msgs.length) (hsz : cfg.bulkSize = msgs.length) :
    (flushIter cfg stale (IterEnv.mk true (msgs.map PullEvent.msg ++ [PullEvent.timeout])
        (fun j => decide (j ≠ i)) none)).acked = msgs.eraseIdx i ∧
    (flushIter cfg stale (IterEnv.mk true (msgs.map PullEvent.msg ++ [PullEvent.timeout])
        (fun j => decide (j ≠ i)) none)).unacked = [msgs.get ⟨i, hi⟩] ∧
    (flushIter cfg stale (IterEnv.mk true (msgs.map PullEvent.msg ++ [PullEvent.timeout])
        (fun j => decide (j ≠ i)) none)).leftover = [] := by
  have hpos : 0 < msgs.length := Nat.lt_of_le_of_lt (Nat.zero_le i) hi
  have hlen : (msgs.map Msg.payload).length = msgs.length := List.length_map _ _
  have hchunks : fullChunks cfg.bulkSize (msgs.map Msg.payload) = [msgs.map Msg.payload] := by
    rw [hsz, ← hlen]
    exact fullChunks_self _ (by omega)
  rw [flushIter_none_def]
  simp only [streamRun_msgs_timeout msgs [], hchunks]
  simp only [List.length_singleton, Nat.mul_one, hsz]
  rw [popLoop_range_except msgs i hi]
  refine ⟨?_, ?_, ?_⟩
  · rw [List.filter_append, List.filter_cons]
    simp only [show ((false, msgs.get ⟨i, hi⟩).1 = true) = False by simp, if_false,
      decide_False]
    rw [List.map_append, filter_fst_of_map_true, filter_fst_of_map_true,
      List.eraseIdx_eq_take_drop_succ]
  · rw [List.filter_append, List.filter_cons]
    simp only [Bool.not_false, if_true]
    rw [List.map_append, List.map_cons, filter_neg_fst_of_map_true, filter_neg_fst_of_map_true]
    rfl
  · have hl : (List.map (fun m => (true, m)) (List.take i msgs) ++
        (false, msgs.get ⟨i, hi⟩) :: List.map (fun m => (true, m)) (List.drop (i + 1) msgs)).length
        = msgs.length := by
      simp only [List.length_append, List.length_cons, List.length_map, List.length_take,
        List.length_drop]
      omega
    rw [hl, List.drop_length]

/-- C1 witness: the spec's own example scenario, three documents with the
second rejected; only it stays un-acknowledged. -/
theorem failed_doc_remains_unacked_witness :
    (flushIter wCfg [] (IterEnv.mk true ([wMsg0, wMsg1, wMsg2].map PullEvent.msg
        ++ [PullEvent.timeout]) (fun j => decide (j ≠ 1)) none)).acked
      = [wMsg0, wMsg1, wMsg2].eraseIdx 1 ∧
    (flushIter wCfg [] (IterEnv.mk true ([wMsg0, wMsg1, wMsg2].map PullEvent.msg
        ++ [PullEvent.timeout]) (fun j => decide (j ≠ 1)) none)).unacked
      = [[wMsg0, wMsg1, wMsg2].get ⟨1, by decide⟩] ∧
    (flushIter wCfg [] (IterEnv.mk true ([wMsg0, wMsg1, wMsg2].map PullEvent.msg
        ++ [PullEvent.timeout]) (fun j => decide (j ≠ 1)) none)).leftover = [] :=
  failed_doc_remains_unacked wCfg [] [wMsg0, wMsg1, wMsg2] 1 (by decide) rfl

/-- C2: the stream appends each handle before yielding its payload, so the
k-th yielded payload is the payload of the k-th appended handle, and the
acknowledgment loop pops positionally, so the result at position k is
paired with the message pulled k-th, never with the one at k+1. -/
theorem ack_order_positional (pulls : List PullEvent) (results : List Bool) (k : Nat) :
    ((streamRun pulls).2.1).get? k = ((streamRun pulls).1.get? k).map Msg.payload ∧
    (popLoop results (streamRun pulls).1).get? k
      = (results.get? k).bind (fun r => ((streamRun pulls).1.get? k).map (fun m => (r, m))) := by
  refine ⟨?_, popLoop_get? _ _ _⟩
  rw [streamRun_yields, List.get?_map]

/-- C3 counterexample: a pull that times out raises `Empty` out of the
generator — the sequence terminates with an error, nothing was yielded, and
the loop did not retry the pull even though a message was available right
after the timeout. -/
theorem timeout_error_escapes_stream_cex :
    (streamRun [PullEvent.timeout, PullEvent.msg (Msg.mk 0 Json.null)]).2.2 = true ∧
    (streamRun [PullEvent.timeout, PullEvent.msg (Msg.mk 0 Json.null)]).1 = [] ∧
    (streamRun [PullEvent.timeout, PullEvent.msg (Msg.mk 0 Json.null)]).2.1 = [] :=
  ⟨rfl, rfl, rfl⟩

/-- C3 amended: when a pull times out, the `Empty` exception escapes the
generator and terminates the yielded sequence right there (after the
messages pulled so far); the owning worker's loop does not terminate,
because the flush loop's bare `except` catches the exception and starts the
next iteration. -/
theorem timeout_ends_stream_loop_survives (pre : List Msg) (rest : List PullEvent)
    (cfg : Config) (stale : List Msg) (judge : Nat → Bool) (envs : List IterEnv) :
    streamRun (pre.map PullEvent.msg ++ PullEvent.timeout :: rest)
      = (pre, pre.map Msg.payload, true) ∧
    (flushIter cfg stale (IterEnv.mk true (pre.map PullEvent.msg ++ PullEvent.timeout :: rest)
        judge none)).err = some Err.emptyTimeout ∧
    flushLoop cfg stale (IterEnv.mk true (pre.map PullEvent.msg ++ PullEvent.timeout :: rest)
        judge none :: envs)
      = flushIter cfg stale (IterEnv.mk true (pre.map PullEvent.msg ++ PullEvent.timeout :: rest)
          judge none)
        :: flushLoop cfg (flushIter cfg stale (IterEnv.mk true
            (pre.map PullEvent.msg ++ PullEvent.timeout :: rest) judge none)).leftover envs := by
  have herr : (flushIter cfg stale (IterEnv.mk true
      (pre.map PullEvent.msg ++ PullEvent.timeout :: rest) judge none)).err
      = some Err.emptyTimeout := by
    rw [flushIter_none_def]
    simp [streamRun_msgs_timeout]
  exact ⟨streamRun_msgs_timeout pre rest, herr, flushLoop_cons_some cfg stale _ envs _ herr⟩

/-- C4: every exception that ends an iteration of the flush loop is caught
by the outer recovery loop, which then runs the next iteration — the loop
consumes every iteration environment instead of dying — and each iteration
behaves exactly as if started from an empty pending-ack list; the entries
carried over from the previous iteration are discarded unread. -/
theorem flush_loop_catches_and_restarts_fresh (cfg : Config) (stale : List Msg)
    (envs : List IterEnv)
    (h : ∀ e ∈ envs, (flushIter cfg [] e).err.isSome = true) :
    flushLoop cfg stale envs = envs.map (flushIter cfg []) := by
  induction envs generalizing stale with
  | nil => rfl
  | cons e es ih =>
    have he : (flushIter cfg stale e).err.isSome = true := by
      rw [flushIter_fresh cfg stale [] e]
      exact h e (List.mem_cons_self e es)
    obtain ⟨v, hv⟩ := Option.isSome_iff_exists.mp he
    rw [flushLoop_cons_some cfg stale e es v hv,
      ih _ (fun x hx => h x (List.mem_cons_of_mem e hx)),
      List.map_cons, flushIter_fresh cfg stale [] e]

/-- C4 witness: a backend-connection failure followed by a timeout; both
iterations run, both exceptions are caught, and the stale pending-ack entry
is discarded. -/
theorem flush_loop_catches_and_restarts_fresh_witness :
    flushLoop wCfg [wMsg2] [wEnvConnFail, wEnvTimeout]
      = [wEnvConnFail, wEnvTimeout].map (flushIter wCfg []) :=
  flush_loop_catches_and_restarts_fresh wCfg [wMsg2] [wEnvConnFail, wEnvTimeout] (by
    intro e he
    rcases List.mem_cons.mp he with rfl | he2
    · rfl
    rcases List.mem_cons.mp he2 with rfl | he3
    · rfl
    · exact absurd he3 (List.not_mem_nil e))

/-- C5 counterexample: a malformed document (missing its `dreadfort`
routing metadata) is NOT surfaced to the caller: `put_message` catches the
`KeyError`, logs it, and calls `put_message.retry()` — the task is retried
even though retrying cannot fix malformed data. -/
theorem malformed_input_retried_cex :
    put_message wCfg (Json.obj [("body", Json.str "x")]) (moduleInit true)
      = PutOutcome.retried (logErr (moduleInit true) Err.keyError) ∧
    ∀ st', put_message wCfg (Json.obj [("body", Json.str "x")]) (moduleInit true)
      ≠ PutOutcome.published st' :=
  ⟨rfl, fun st' h => PutOutcome.noConfusion h⟩

/-- C5 amended: for every document whose queuing fails because the required
routing metadata is missing, `put_message` catches the exception, logs it,
and retries the task through the framework's retry mechanism; the failure
is not surfaced immediately to the caller and malformed input is retried
like any other failure. -/
theorem malformed_input_caught_and_retried (cfg : Config) (m : Json) (st : SinkState)
    (h : (m.get "dreadfort").bind (fun d => d.get "tenant") = none ∨
      (m.get "dreadfort").bind
        (fun d => (d.get "correlation").bind (fun c => c.get "pattern")) = none) :
    put_message cfg m st = PutOutcome.retried (logErr st Err.keyError) := by
  cases hm : (m.get "dreadfort").bind (fun d => d.get "tenant") with
  | none => rw [put_message, hm]
  | some idx =>
    rcases h with h | h
    · rw [hm] at h
      exact absurd h (by simp)
    · rw [put_message, hm, h]

/-- C5 amended witness: the empty document is caught and retried. -/
theorem malformed_input_caught_and_retried_witness :
    put_message wCfg (Json.obj []) (moduleInit true)
      = PutOutcome.retried (logErr (moduleInit true) Err.keyError) :=
  malformed_input_caught_and_retried wCfg (Json.obj []) (moduleInit true) (Or.inl rfl)

/-- C6: the action id is generated inside `_queue_index_request` at publish
time — a call leaves the published channel unchanged (failed publish) or
extends it with an action whose id is the at-call-time counter value — and
consequently any sequence of `put_message` calls from module import, with
duplicate documents allowed, publishes actions with pairwise-distinct ids. -/
theorem action_ids_fresh_and_distinct (cfg : Config) (b : Bool) (docs : List Json) :
    (publishedIds (runPuts cfg docs (moduleInit b))).Nodup ∧
    ∀ index docType document ttl st,
      (_queue_index_request index docType document ttl st).1.published = st.published ∨
      (_queue_index_request index docType document ttl st).1.published
        = st.published ++ [mkAction index docType st.uuidCtr ttl document] := by
  constructor
  · exact (idsOk_runPuts cfg docs (moduleInit b) (idsOk_init b)).2
  · intro index docType document ttl st
    unfold _queue_index_request
    by_cases h1 : st.declared = false
    · left
      rw [if_pos h1]
    · rw [if_neg h1]
      by_cases h2 : st.brokerUp = false
      · left
        rw [if_pos h2]
      · right
        rw [if_neg h2]

/-- C7: a successfully queued document is published as a dictionary with
exactly the keys `_index`, `_type`, `_id`, `_ttl`, `_source`, where
`_index` is the document's own `dreadfort.tenant` value, `_type` its own
`dreadfort.correlation.pattern` value, `_ttl` the configured module default
`TTL`, and `_source` the original document verbatim. -/
theorem action_envelope_fields (cfg : Config) (st : SinkState)
    (m d corr tenant pattern : Json)
    (hd : m.get "dreadfort" = some d)
    (ht : d.get "tenant" = some tenant)
    (hc : d.get "correlation" = some corr)
    (hp : corr.get "pattern" = some pattern)
    (hdecl : st.declared = true) (hbrok : st.brokerUp = true) :
    put_message cfg m st = PutOutcome.published { st with
      uuidCtr := st.uuidCtr + 1
      published := st.published ++
        [Json.obj [("_index", tenant), ("_type", pattern),
          ("_id", Json.num (Int.ofNat st.uuidCtr)),
          ("_ttl", Json.num cfg.ttl), ("_source", m)]] } := by
  rw [put_message]
  simp only [hd, Option.some_bind, ht, hc, hp]
  rw [queueIndexRequestTTL, _queue_index_request]
  rw [if_neg (by rw [hdecl]; simp), if_neg (by rw [hbrok]; simp)]
  rfl

/-- C7 witness: a concrete well-formed document published from the import
state. -/
theorem action_envelope_fields_witness :
    put_message wCfg wDoc (moduleInit true) = PutOutcome.published { moduleInit true with
      uuidCtr := 1
      published := [Json.obj [("_index", Json.str "acme"), ("_type", Json.str "login"),
        ("_id", Json.num 0), ("_ttl", Json.num 360), ("_source", wDoc)]] } :=
  action_envelope_fields wCfg (moduleInit true) wDoc
    (Json.obj [("tenant", Json.str "acme"),
      ("correlation", Json.obj [("pattern", Json.str "login")])])
    (Json.obj [("pattern", Json.str "login")]) (Json.str "acme") (Json.str "login")
    rfl rfl rfl rfl rfl rfl

/-- C8: `ElasticSearchStreamBulker.start` spawns exactly one worker process
per available processing core, all of them started (Python 2's `map` is
eager) and all targeting the module-level `flush_to_es`, which runs the
flush loop. -/
theorem start_spawns_cpu_count_workers (self : ElasticSearchStreamBulker)
    (cpuCount : Nat) :
    self.start cpuCount = List.replicate cpuCount (Proc.mk ProcTarget.flushToEs true) ∧
    ∀ cfg stale envs,
      ProcTarget.run ProcTarget.flushToEs cfg stale envs = flushLoop cfg stale envs := by
  refine ⟨?_, fun cfg stale envs => rfl⟩
  rw [ElasticSearchStreamBulker.start]
  simp only [List.map_map]
  apply List.eq_replicate.2
  constructor
  · simp
  · intro p hp
    simp only [List.mem_map, Function.comp] at hp
    obtain ⟨j, _, rfl⟩ := hp
    rfl

/-- C9: when the module-level channel declaration fails (broker down at
import), the failure is logged and the import completes instead of
crashing; in the resulting degraded state every subsequent publish fails
individually with a `NameError` (so nothing is ever published) and every
pull fails individually against the unreachable broker. -/
theorem declare_failure_soft_degrade :
    (moduleInit false).declared = false ∧
    Err.declareFail ∈ (moduleInit false).logged ∧
    (∀ cfg docs index docType document ttl,
      (_queue_index_request index docType document ttl
        (runPuts cfg docs (moduleInit false))).2 = some Err.nameError) ∧
    (∀ cfg docs, (runPuts cfg docs (moduleInit false)).published = []) ∧
    (∀ ev, pullCall (moduleInit false).brokerUp ev = Except.error Err.connectFail) := by
  refine ⟨rfl, by simp [moduleInit], ?_, ?_, fun ev => rfl⟩
  · intro cfg docs index docType document ttl
    rw [_queue_index_request,
      if_pos (runPuts_degraded cfg docs (moduleInit false) rfl rfl).1]
  · intro cfg docs
    exact (runPuts_degraded cfg docs (moduleInit false) rfl rfl).2

/-- C10: the `bulk_size` constructor argument is stored on the instance but
never read: the workers and the flush loop they run are identical whatever
value was passed, and every chunk actually submitted has the module
constant `BULK_SIZE` as its size. -/
theorem bulk_size_argument_never_read (b : Nat) (cfg : Config) (stale : List Msg)
    (envs : List IterEnv) (n : Nat) (env : IterEnv) :
    (ElasticSearchStreamBulker.mk b).bulk_size = b ∧
    bulkerWorkerRun (ElasticSearchStreamBulker.mk b) cfg stale envs
      = bulkerWorkerRun (ElasticSearchStreamBulker.mk cfg.bulkSize) cfg stale envs ∧
    (ElasticSearchStreamBulker.mk b).start n
      = (ElasticSearchStreamBulker.mk cfg.bulkSize).start n ∧
    ∀ batch ∈ (flushIter cfg stale env).batches, batch.length = cfg.bulkSize := by
  refine ⟨rfl, rfl, rfl, ?_⟩
  intro batch hb
  rcases env with ⟨ck, pulls, judge, fc⟩
  cases ck with
  | false =>
    rw [flushIter_connectFail_def] at hb
    simp at hb
  | true =>
    rw [flushIter_ok_batches] at hb
    have hb2 : batch ∈ fullChunks cfg.bulkSize (streamRun pulls).2.1 :=
      List.mem_of_mem_take hb
    exact fullChunksGo_mem_length hb2

/-- C10 witness: with module `BULK_SIZE = 2` and four pulled documents,
every submitted chunk has length two, whatever `bulk_size` the instance was
constructed with. -/
theorem bulk_size_argument_never_read_witness :
    [Json.str "p0", Json.str "p1"].length = wCfg2.bulkSize :=
  (bulk_size_argument_never_read 5 wCfg2 [] [] 1 wEnvChunks).2.2.2
    [Json.str "p0", Json.str "p1"] (List.Mem.head _)
